import Mathlib

/-!
Shallow embedding of the GSB client routing core
(`src/src/connection.rs`, `src/src/local_router.rs`, and the legacy
`src/bus/src/local_router.rs`) together with proofs checking the
natural-language specification against it.

Conventions of the embedding:
* byte strings are `List Nat`;
* Rust `Result<A, Error>` is `Except Error A`;
* a Rust panic (an `unwrap()` on a fallible operation) is modelled by an
  `Option` result being `none`;
* external collaborators (the serde-style serializer, `String::from_utf8`,
  actix mailboxes and the transport sink) are parameters of the functions
  that call out to them;
* the connection actor is modelled by an explicit state `Conn` and a step
  function on inbound frames returning the new state plus the list of
  observable outputs (completed one-shot waiters, chunk-sink deliveries,
  frames written to the transport, handler dispatches).
-/

deriving instance DecidableEq for Except

namespace Gsb

/-- Error taxonomy of the client (`Error` in the crate root, §7 of the spec). -/
inductive Error where
  | NoEndpoint (addr : String)
  | GsbBadRequest (msg : String)
  | GsbAlreadyRegistered (msg : String)
  | GsbFailure (msg : String)
  | Cancelled
  | Serialization (msg : String)
  deriving Repr, DecidableEq

/-- One frame of a streaming response (`ResponseChunk` in the crate root). -/
inductive ResponseChunk where
  | Part (data : List Nat)
  | Full (data : List Nat)
  deriving Repr, DecidableEq

namespace ResponseChunk

/-- `ResponseChunk::reply_type() as i32` (connection.rs:75-82):
`Full ↦ CallReplyType::Full = 0`, `Part ↦ CallReplyType::Partial = 1`. -/
def replyTypeInt : ResponseChunk → Int
  | .Full _ => 0
  | .Part _ => 1

/-- `ResponseChunk::into_vec` / `into_bytes` (connection.rs:84-90): the payload. -/
def intoVec : ResponseChunk → List Nat
  | .Full v => v
  | .Part v => v

/-- Modelled from the spec: `ResponseChunk::is_full` lives in the crate root
(`lib.rs`), outside `src/`; per the spec a `Full` chunk is the terminal
(non-partial) reply. -/
def isFull : ResponseChunk → Bool
  | .Full _ => true
  | .Part _ => false

/-- Modelled from the spec: `ResponseChunk::is_eos` lives in the crate root
(`lib.rs`), outside `src/`; per the spec §3 (I3) and the glossary, a `Full`
chunk with empty data is the end-of-stream sentinel. -/
def isEos : ResponseChunk → Bool
  | .Full v => v.isEmpty
  | .Part _ => false

end ResponseChunk

/-- Server/client handshake frame (`ya_sb_proto::Hello`), restricted to the
fields the connection reads. -/
structure Hello where
  name : String
  version : String
  instanceId : List Nat
  deriving Repr, DecidableEq

/-- `ya_sb_proto::CallReply` wire frame. -/
structure CallReply where
  requestId : String
  code : Int
  replyType : Int
  data : List Nat
  deriving Repr, DecidableEq

/-- Inbound/outbound frames of the wire protocol
(`ya_sb_proto::codec::GsbMessage`), restricted to the fields the connection
state machine reads.  `other` stands for any frame kind the client's
`StreamHandler` does not expect (it hits the catch-all arm). -/
inductive GsbMessage where
  | registerReply (code : Int) (message : String)
  | unregisterReply (code : Int)
  | subscribeReply (code : Int) (message : String)
  | unsubscribeReply (code : Int)
  | broadcastReply (code : Int) (message : String)
  | callRequest (requestId caller address : String) (data : List Nat) (noReply : Bool)
  | callReply (r : CallReply)
  | broadcastRequest (caller topic : String) (data : List Nat)
  | ping
  | pong
  | hello (h : Hello)
  | other
  deriving Repr, DecidableEq

/-- `RpcRawCall` (crate root): byte-level unary call. -/
structure RpcRawCall where
  caller : String
  addr : String
  body : List Nat
  noReply : Bool
  deriving Repr, DecidableEq

/-! ### Reply-code decoders (connection.rs:500-539)

These are the literal translations of the `*_reply_code` functions; each
returns `none` exactly on the integer codes that the source maps to
`return None`. -/

/-- `register_reply_code` (connection.rs:500-507). -/
def registerReplyCode (code : Int) : Option Unit :=
  if code = 0 then some () else if code = 400 then some () else
  if code = 409 then some () else none

/-- `register_reply_code` combined with `handle_register_reply`
(connection.rs:272-289): the value delivered to the head register waiter. -/
def registerReplyResult (code : Int) (msg : String) : Except Error Unit :=
  if code = 0 then .ok () else
  if code = 400 then .error (.GsbBadRequest msg) else
  .error (.GsbAlreadyRegistered msg)

/-- `unregister_reply_code` (connection.rs:509-515). -/
def unregisterReplyCode (code : Int) : Option Unit :=
  if code = 0 then some () else if code = 404 then some () else none

/-- `handle_unregister_reply` result value (connection.rs:242-258). -/
def unregisterReplyResult (code : Int) : Except Error Unit :=
  if code = 0 then .ok () else .error (.GsbBadRequest "unregister")

/-- `subscribe_reply_code` (connection.rs:517-523). -/
def subscribeReplyCode (code : Int) : Option Unit :=
  if code = 0 then some () else if code = 400 then some () else none

/-- `handle_subscribe_reply` result value (connection.rs:291-304). -/
def subscribeReplyResult (code : Int) (msg : String) : Except Error Unit :=
  if code = 0 then .ok () else .error (.GsbBadRequest msg)

/-- `unsubscribe_reply_code` (connection.rs:525-531). -/
def unsubscribeReplyCode (code : Int) : Option Unit :=
  if code = 0 then some () else if code = 404 then some () else none

/-- `handle_unsubscribe_reply` result value (connection.rs:306-322). -/
def unsubscribeReplyResult (code : Int) : Except Error Unit :=
  if code = 0 then .ok () else .error (.GsbBadRequest "unsubscribed")

/-- `broadcast_reply_code` (connection.rs:533-539). -/
def broadcastReplyCode (code : Int) : Option Unit :=
  if code = 0 then some () else if code = 400 then some () else none

/-- `handle_broadcast_reply` result value (connection.rs:260-270). -/
def broadcastReplyResult (code : Int) (msg : String) : Except Error Unit :=
  if code = 0 then .ok () else .error (.GsbBadRequest msg)

/-- Modelled from the spec: `CallReplyCode` and its `TryFrom<i32>` live in the
`ya-sb-proto` crate of this repository, outside `src/`.  Spec §6 defines the
reply codes `0 = Ok`, `400 = BadRequest`, `500 = ServiceFailure`, with
unknown codes rejected. -/
inductive CallReplyCode where
  | callReplyOk
  | callReplyBadRequest
  | serviceFailure
  deriving Repr, DecidableEq

/-- Modelled from the spec: integer decoding of `CallReplyCode`
(`code.try_into()` at connection.rs:441); unknown codes fail. -/
def callReplyCode (code : Int) : Option CallReplyCode :=
  if code = 0 then some .callReplyOk else
  if code = 400 then some .callReplyBadRequest else
  if code = 500 then some .serviceFailure else none

/-! ### Association-list model of `HashMap<String, Sender>` -/

/-- `HashMap::insert`: replaces the value at an existing key, else appends. -/
def mapInsert (m : List (String × Nat)) (k : String) (v : Nat) : List (String × Nat) :=
  match m with
  | [] => [(k, v)]
  | (k', v') :: rest =>
      if k' = k then (k, v) :: rest else (k', v') :: mapInsert rest k v

/-- `HashMap::get`. -/
def mapGet (m : List (String × Nat)) (k : String) : Option Nat :=
  match m with
  | [] => none
  | (k', v') :: rest => if k' = k then some v' else mapGet rest k

/-- `HashMap::remove` (value discarded by the caller). -/
def mapRemove (m : List (String × Nat)) (k : String) : List (String × Nat) :=
  match m with
  | [] => []
  | (k', v') :: rest => if k' = k then rest else (k', v') :: mapRemove rest k

/-! ### The connection actor state (connection.rs:177-199) -/

/-- `Connection<W, H>` state.  The FIFO reply queues hold opaque tokens
standing for the queued `oneshot::Sender`s (front of the list = head of the
`VecDeque`); `callReply` is the `request_id → chunk-sink` map with sinks as
tokens; `running` is false once `ctx.stop()` has been called. -/
structure Conn where
  registerReply : List Nat
  unregisterReply : List Nat
  subscribeReply : List Nat
  unsubscribeReply : List Nat
  broadcastReply : List Nat
  callReply : List (String × Nat)
  serverInfo : Option Hello
  running : Bool
  deriving Repr, DecidableEq

/-- The freshly created connection (`Connection::new`, connection.rs:227-240). -/
def Conn.init : Conn where
  registerReply := []
  unregisterReply := []
  subscribeReply := []
  unsubscribeReply := []
  broadcastReply := []
  callReply := []
  serverInfo := none
  running := true

/-- Observable effects of one step of the connection actor. -/
inductive ConnOutput where
  | complete (token : Nat) (r : Except Error Unit)
  | deliver (sink : Nat) (item : Except Error ResponseChunk)
  | write (m : GsbMessage)
  | callHandled (requestId caller address : String) (data : List Nat) (noReply : Bool)
  | event (caller topic : String) (data : List Nat)
  deriving Repr, DecidableEq

/-- `handle_reply` helper (connection.rs:201-213): pop the head waiter and
complete it, or stop on queue underflow (an unmatched reply). -/
def popCompleteOr (queue : List Nat) (r : Except Error Unit)
    (mk : List Nat → Conn) (stopped : Conn) : Conn × List ConnOutput :=
  match queue with
  | [] => (stopped, [])
  | t :: ts => (mk ts, [.complete t r])

/-- One step of `StreamHandler::handle` (connection.rs:546-630) on an inbound
frame, given the external collaborators: `utf8` models
`String::from_utf8` (for `CallReply` error payloads) and `writeAccepts`
tells whether `SinkWrite::write` accepts the frame (`None` in the source)
or rejects it (`Some(_)`).  Returns the successor state and the observable
outputs. -/
def handleFrame (utf8 : List Nat → Option String) (writeAccepts : Bool)
    (c : Conn) (m : GsbMessage) : Conn × List ConnOutput :=
  let stopped := { c with running := false }
  match m with
  | .registerReply code msg =>
      match registerReplyCode code with
      | none => (stopped, [])
      | some _ =>
          popCompleteOr c.registerReply (registerReplyResult code msg)
            (fun q => { c with registerReply := q }) stopped
  | .unregisterReply code =>
      match unregisterReplyCode code with
      | none => (stopped, [])
      | some _ =>
          popCompleteOr c.unregisterReply (unregisterReplyResult code)
            (fun q => { c with unregisterReply := q }) stopped
  | .subscribeReply code msg =>
      match subscribeReplyCode code with
      | none => (stopped, [])
      | some _ =>
          popCompleteOr c.subscribeReply (subscribeReplyResult code msg)
            (fun q => { c with subscribeReply := q }) stopped
  | .unsubscribeReply code =>
      match unsubscribeReplyCode code with
      | none => (stopped, [])
      | some _ =>
          popCompleteOr c.unsubscribeReply (unsubscribeReplyResult code)
            (fun q => { c with unsubscribeReply := q }) stopped
  | .broadcastReply code msg =>
      match broadcastReplyCode code with
      | none => (stopped, [])
      | some _ =>
          popCompleteOr c.broadcastReply (broadcastReplyResult code msg)
            (fun q => { c with broadcastReply := q }) stopped
  | .callRequest rid caller address data noReply =>
      (c, [.callHandled rid caller address data noReply])
  | .callReply r =>
      let chunk := if r.replyType = 1 then ResponseChunk.Part r.data
                   else ResponseChunk.Full r.data
      let isFull := chunk.isFull
      let afterRemoval := fun (c' : Conn) =>
        if isFull then { c' with callReply := mapRemove c'.callReply r.requestId } else c'
      match mapGet c.callReply r.requestId with
      | some sink =>
          match callReplyCode r.code with
          | none => (stopped, [])
          | some .callReplyOk =>
              (afterRemoval c, [.deliver sink (.ok chunk)])
          | some .callReplyBadRequest =>
              match utf8 chunk.intoVec with
              | none => (stopped, [])
              | some s => (afterRemoval c, [.deliver sink (.error (.GsbBadRequest s))])
          | some .serviceFailure =>
              match utf8 chunk.intoVec with
              | none => (stopped, [])
              | some s => (afterRemoval c, [.deliver sink (.error (.GsbFailure s))])
      | none => (afterRemoval c, [])
  | .broadcastRequest caller topic data =>
      (c, [.event caller topic data])
  | .ping =>
      if writeAccepts then (c, [.write .pong]) else (stopped, [])
  | .hello h =>
      match c.serverInfo with
      | some _ => (stopped, [])
      | none => ({ c with serverInfo := some h }, [])
  | .pong => (stopped, [])
  | .other => (stopped, [])

/-- One inbound item of the framed stream: a stopped actor processes nothing
further; a protocol decode error (`Err` item, connection.rs:547-551) stops. -/
def step (utf8 : List Nat → Option String) (writeAccepts : Bool)
    (c : Conn) (item : Option GsbMessage) : Conn :=
  if c.running then
    match item with
    | none => { c with running := false }
    | some m => (handleFrame utf8 writeAccepts c m).1
  else c

/-- Process a trace of inbound items left to right. -/
def processAll (utf8 : List Nat → Option String) (writeAccepts : Bool)
    (c : Conn) (items : List (Option GsbMessage)) : Conn :=
  items.foldl (step utf8 writeAccepts) c

/-! ### Outbound commands -/

/-- `rx.await.map_err(|_| Error::Cancelled)??` in `send_cmd_async`
(connection.rs:731-734): a one-shot receiver whose sender was dropped
(`none`) resolves to `Cancelled`; a delivered value passes through. -/
def resolveRx : Option (Except Error Unit) → Except Error Unit
  | none => .error .Cancelled
  | some r => r

/-- Result of a command handler: either an immediately ready reply or a
pending wait on the queued one-shot token. -/
inductive CmdResult where
  | immediate (r : Except Error Unit)
  | awaiting (token : Nat)
  deriving Repr, DecidableEq

/-- `send_cmd_async` (connection.rs:720-736): queue the one-shot sender,
attempt the frame write; a rejected write replies immediately with
`GsbFailure "no connection"`, otherwise the caller awaits the queued
token. -/
def sendCmdAsync (writeAccepts : Bool) (queue : List Nat) (token : Nat)
    (msg : GsbMessage) : List Nat × List ConnOutput × CmdResult :=
  let q := queue ++ [token]
  if writeAccepts then (q, [.write msg], .awaiting token)
  else (q, [], .immediate (.error (.GsbFailure "no connection")))

/-- `gen_id` (connection.rs:26-32): a random `u64` masked to its low 53 bits. -/
def genId (r : Nat) : Nat :=
  (r % 2 ^ 64) &&& 0x001fffffffffffff

/-- Result of the `Handler<RpcRawCall>` message handler. -/
inductive RawCallResponse where
  | immediate (r : Except Error (List Nat))
  | awaiting (requestId : String)
  deriving Repr, DecidableEq

/-- `Handler<RpcRawCall>::handle` (connection.rs:644-692): allocate a
request id from the random draw `rand`, for a reply-expecting call register
the bounded chunk channel (token `sinkToken`) under the id, write the
`CallRequest` frame (result ignored), and either await the first chunk or
—for `no_reply`—reply `Ok(vec![])` at once. -/
def rpcRawCallStep (c : Conn) (rand : Nat) (sinkToken : Nat)
    (writeAccepts : Bool) (msg : RpcRawCall) : Conn × List ConnOutput × RawCallResponse :=
  let requestId := toString (genId rand)
  let frame := GsbMessage.callRequest requestId msg.caller msg.addr msg.body msg.noReply
  let outs : List ConnOutput := if writeAccepts then [.write frame] else []
  if msg.noReply then
    (c, outs, .immediate (.ok []))
  else
    ({ c with callReply := mapInsert c.callReply requestId sinkToken },
     outs, .awaiting requestId)

/-- The `fetch_response` future of `Handler<RpcRawCall>`
(connection.rs:677-686) applied to the first item received on the reply
channel (`none` = channel closed with nothing delivered). -/
def fetchResponse : Option (Except Error ResponseChunk) → Except Error (List Nat)
  | some (.ok (.Full data)) => .ok data
  | some (.error e) => .error e
  | some (.ok (.Part _)) => .error (.GsbFailure "streaming response")
  | none => .error (.GsbFailure "unexpected EOS")

/-- `Handler<RpcRawStreamCall>::handle` (connection.rs:694-718): register the
caller-supplied sink and write the `CallRequest`. -/
def rpcRawStreamCallStep (c : Conn) (rand : Nat) (sinkToken : Nat)
    (writeAccepts : Bool) (caller addr : String) (body : List Nat) :
    Conn × List ConnOutput × String :=
  let requestId := toString (genId rand)
  let frame := GsbMessage.callRequest requestId caller addr body false
  let outs : List ConnOutput := if writeAccepts then [.write frame] else []
  ({ c with callReply := mapInsert c.callReply requestId sinkToken }, outs, requestId)

/-! ### Serving an inbound `CallRequest` (connection.rs:324-391) -/

/-- One iteration of the `fold` in `handle_call_request`: the `CallReply`
written for one handler item, paired with the new `got_eos` flag.
`errPayload` models `format!("{}", e).into_bytes()` (the `Display`
rendering of the error, implemented outside `src/`). -/
def chunkToReply (errPayload : Error → List Nat) (rid : String) :
    Except Error ResponseChunk → Bool × CallReply
  | .ok d => (d.replyTypeInt = 0, ⟨rid, 0, d.replyTypeInt, d.intoVec⟩)
  | .error e => (true, ⟨rid, 500, 0, errPayload e⟩)

/-- The trailing empty-data terminating reply (connection.rs:380-385). -/
def eosReply (rid : String) : CallReply := ⟨rid, 0, 0, []⟩

/-- `handle_call_request` (connection.rs:324-391) as a function from the
chunk stream the local handler produced to the list of `CallReply` frames
written back, in order: one reply per chunk, plus the terminating
empty-data `Full` reply when the last written reply was not already of
reply type 0. -/
def callRequestReplies (errPayload : Error → List Nat) (rid : String)
    (chunks : List (Except Error ResponseChunk)) : List CallReply :=
  let p := chunks.foldl
    (fun (acc : Bool × List CallReply) r =>
      let er := chunkToReply errPayload rid r
      (er.1, acc.2 ++ [er.2]))
    (false, ([] : List CallReply))
  if p.1 then p.2 else p.2 ++ [eosReply rid]

/-- The `got_eos` flag left by the `fold` of `handle_call_request` after the
whole chunk stream: whether the last written reply already had reply type 0
(`false` for an empty stream). -/
def repliesEndedFull (errPayload : Error → List Nat) (rid : String)
    (chunks : List (Except Error ResponseChunk)) : Bool :=
  chunks.foldl (fun _ r => (chunkToReply errPayload rid r).1) false

/-- Whether an inbound stream item is a server `Hello` frame. -/
def isHelloItem : Option GsbMessage → Bool
  | some (.hello _) => true
  | _ => false

/-- Number of `Hello` frames in a trace of inbound items. -/
def countHello (items : List (Option GsbMessage)) : Nat :=
  (items.filter isHelloItem).length

/-! ### The local router (src/src/local_router.rs) -/

/-- Behavioural model of a stored `Slot` as seen by `Router::forward` /
`Router::push`: `typed` is the result of the checked downcast to the
caller's typed recipient (`Slot::recipient`, local_router.rs:278-286), with
the recipient itself as the delivery function (actix mailbox errors folded
into its `Except`); `rawSend` is the type-erased `RawEndpoint::send` of the
slot on a serialized body. -/
structure SlotModel (T R : Type) where
  typed : Option (T → Except Error R)
  rawSend : List Nat → Except Error (List Nat)

/-- The reply post-processing closure of `Router::forward`
(local_router.rs:526-539 for the local raw branch, 552-565 for the broker
branch): an empty `Ok` byte reply becomes `GsbFailure "empty response from
remote service"`, a non-empty one is deserialized by `fromSlice`
(`crate::serialization::from_slice`), errors pass through. -/
def decodeByteReply {R : Type} (fromSlice : List Nat → Except Error R) :
    Except Error (List Nat) → Except Error R
  | .ok b => if b.isEmpty then .error (.GsbFailure "empty response from remote service")
             else fromSlice b
  | .error e => .error e

/-- `Router::forward` (local_router.rs:513-568) after the longest-prefix
lookup, with `slot?` the lookup result, `serialize` the body serializer
used by `RpcRawCall::from_envelope_addr`, and `remoteSend` the broker
client's byte-level reply for the written `CallRequest`. -/
def forwardModel {T R : Type} (slot? : Option (SlotModel T R)) (serialize : T → List Nat)
    (fromSlice : List Nat → Except Error R) (remoteSend : List Nat → Except Error (List Nat))
    (msg : T) : Except Error R :=
  match slot? with
  | some slot =>
      match slot.typed with
      | some h => h msg
      | none => decodeByteReply fromSlice (slot.rawSend (serialize msg))
  | none => decodeByteReply fromSlice (remoteSend (serialize msg))

/-- `Router::push` (local_router.rs:570-603): the fire-and-forget variant,
sending with `no_reply = true`; every branch maps a successful send to
`Ok(())`. -/
def pushModel {T R : Type} (slot? : Option (SlotModel T R)) (serialize : T → List Nat)
    (remoteSend : List Nat → Except Error (List Nat)) (msg : T) : Except Error Unit :=
  match slot? with
  | some slot =>
      match slot.typed with
      | some h => (h msg).map (fun _ => ())
      | none => (slot.rawSend (serialize msg)).map (fun _ => ())
  | none => (remoteSend (serialize msg)).map (fun _ => ())

/-- Rust `str::starts_with` on UTF-8 strings: the argument's character data
is a prefix of the receiver's. -/
def strStartsWith (s p : String) : Bool :=
  p.data.isPrefixOf s.data

/-- Rust `str::ends_with`. -/
def strEndsWith (s p : String) : Bool :=
  p.data.isSuffixOf s.data

/-- The removal pattern of `Router::unbind` (local_router.rs:429-432):
the address itself when it ends in a slash, else the address with a
trailing slash appended. -/
def unbindPattern (addr : String) : String :=
  if strEndsWith addr "/" then addr else addr ++ "/"

/-- The keys `Router::unbind` removes (local_router.rs:433-443): every bound
key starting with the pattern. -/
def unbindRemoved (keys : List String) (addr : String) : List String :=
  keys.filter (fun a => strStartsWith a (unbindPattern addr))

/-- The keys left bound after `Router::unbind` (the `PrefixLookupBag` of the
`ya-sb-util` crate removes exactly the listed keys; keys are unique by
invariant I1). -/
def unbindRemaining (keys : List String) (addr : String) : List String :=
  keys.filter (fun a => ! strStartsWith a (unbindPattern addr))

/-- The boolean `Router::unbind` resolves with (local_router.rs:445-455):
true iff at least one key was removed. -/
def unbindSuccess (keys : List String) (addr : String) : Bool :=
  ! (unbindRemoved keys addr).isEmpty

/-! ### Streaming endpoints and their panics (C10) -/

/-- `RawEndpoint::send` of a unary typed slot
(`Recipient<RpcEnvelope<T>>`, src/src/local_router.rs:43-54): a body that
fails to deserialize is returned as an error value; otherwise the typed
recipient is invoked (`handler`, actix mailbox errors folded in) and its
reply serialized. -/
def unarySlotSend {T R : Type} (deser : List Nat → Except Error T)
    (handler : T → Except Error R) (ser : R → Except Error (List Nat))
    (body : List Nat) : Except Error (List Nat) :=
  match deser body with
  | .error e => .error e
  | .ok v => (handler v).bind ser

/-- `RawEndpoint::send` of the legacy bus unary typed slot
(`Recipient<RpcEnvelope<T>>`, src/bus/src/local_router.rs:27-40):
the body is deserialized with `.unwrap()`, so a failing body panics —
modelled as `none`. -/
def busUnarySlotSend {T R : Type} (deser : List Nat → Except Error T)
    (handler : T → Except Error R) (ser : R → Except Error (List Nat))
    (body : List Nat) : Option (Except Error (List Nat)) :=
  match deser body with
  | .error _ => none
  | .ok v => some ((handler v).bind ser)

/-- `RawEndpoint::call_stream` of a streaming-handler slot
(`Recipient<RpcStreamCall<T>>`, src/src/local_router.rs:88-127): the body is
deserialized with `.unwrap()`, so a failing body panics (`none`); on
success the handler's produced items are each serialized into `Part`
chunks, chained with an optional error from the spawned send
(`sendErr`). -/
def streamSlotCallStream {T R : Type} (deser : List Nat → Except Error T)
    (handlerItems : T → List R) (sendErr : T → Option Error)
    (serItem : R → Except Error (List Nat)) (body : List Nat) :
    Option (List (Except Error ResponseChunk)) :=
  match deser body with
  | .error _ => none
  | .ok v =>
      some ((handlerItems v).map (fun r => (serItem r).map ResponseChunk.Part) ++
        (match sendErr v with
         | some e => [.error e]
         | none => []))

/-- The chunk adaptation of the remote streaming path
(src/src/local_router.rs:631-635): drop `Ok` end-of-stream sentinels, then
deserialize each remaining chunk's bytes into a typed item. -/
def adaptIncoming {I : Type} (deserItem : List Nat → Except Error I)
    (incoming : List (Except Error ResponseChunk)) : List (Except Error I) :=
  (incoming.filter (fun s => match s with
      | .ok c => ¬ c.isEos
      | .error _ => true)).map
    (fun b => match b with
      | .error e => .error e
      | .ok c => deserItem c.intoVec)

/-- `Router::streaming_forward` on the remote-miss path
(src/src/local_router.rs:615-637): the outgoing message is serialized with
`.unwrap()`, so a failing serialization panics (`none`); on success the
incoming chunk stream from the broker is adapted. -/
def streamingForwardMiss {T I : Type} (ser : T → Except Error (List Nat))
    (deserItem : List Nat → Except Error I) (msg : T)
    (incoming : List (Except Error ResponseChunk)) :
    Option (List (Except Error I)) :=
  match ser msg with
  | .error _ => none
  | .ok _ => some (adaptIncoming deserItem incoming)

/-! ## Theorems -/

/-- Inserting a key into the call-reply map makes it retrievable. -/
theorem mapGet_mapInsert_self (m : List (String × Nat)) (k : String) (v : Nat) :
    mapGet (mapInsert m k v) k = some v := by
  induction m with
  | nil => simp [mapInsert, mapGet]
  | cons p rest ih =>
      obtain ⟨k', v'⟩ := p
      by_cases h : k' = k <;> simp [mapInsert, mapGet, h, ih]

/-- C1: a typed unary forward served over raw bytes — a local slot whose
recipient does not downcast to the caller's type, or the broker path on a
lookup miss — fails with `GsbFailure "empty response from remote service"`
when the byte reply is empty, and does so for every deserializer `f` (the
empty bytes are never deserialized); a non-empty byte reply is handed to
the deserializer. -/
theorem forward_empty_reply_rule {T R : Type} (s : SlotModel T R) (g : T → List Nat)
    (f : List Nat → Except Error R) (r : List Nat → Except Error (List Nat)) (m : T)
    (hs : s.typed = none) :
    (s.rawSend (g m) = .ok [] →
       forwardModel (some s) g f r m
         = .error (.GsbFailure "empty response from remote service"))
    ∧ (r (g m) = .ok [] →
       forwardModel none g f r m
         = .error (.GsbFailure "empty response from remote service"))
    ∧ (∀ b, s.rawSend (g m) = .ok b → b ≠ [] →
       forwardModel (some s) g f r m = f b)
    ∧ (∀ b, r (g m) = .ok b → b ≠ [] →
       forwardModel none g f r m = f b) := by
  refine ⟨fun h => ?_, fun h => ?_, fun b h hb => ?_, fun b h hb => ?_⟩
  · simp [forwardModel, hs, h, decodeByteReply]
  · simp [forwardModel, hs, h, decodeByteReply]
  · simp [forwardModel, hs, h, decodeByteReply, hb]
  · simp [forwardModel, hs, h, decodeByteReply, hb]

/-- Witness for C1: the empty-reply failure on a raw local slot, and the
deserialized non-empty reply on the broker path, at concrete inputs. -/
theorem forward_empty_reply_rule_witness :
    forwardModel (T := Nat) (R := Nat) (some ⟨none, fun _ => .ok []⟩) (fun _ => [])
        (fun b => .ok b.length) (fun _ => .ok [7]) 0
      = .error (.GsbFailure "empty response from remote service")
    ∧ forwardModel (T := Nat) (R := Nat) none (fun _ => [])
        (fun b => .ok b.length) (fun _ => .ok [7]) 0 = .ok 1 := by
  have h := forward_empty_reply_rule (T := Nat) (R := Nat) ⟨none, fun _ => .ok []⟩
    (fun _ => []) (fun b => .ok b.length) (fun _ => .ok [7]) 0 rfl
  refine ⟨h.1 rfl, ?_⟩
  rw [h.2.2.2 [7] rfl (by decide)]
  rfl

/-- C2: a `RegisterReply` whose integer code is not 0, 400 or 409 stops the
connection, completing no waiter and leaving the reply queues untouched;
the queued one-shot senders are then dropped with the stopped actor, and a
waiter whose sender was dropped resolves to `Error::Cancelled`
(`resolveRx none`, the `send_cmd_async` mapping). -/
theorem register_unknown_code_stops (u : List Nat → Option String) (w : Bool)
    (c : Conn) (code : Int) (msg : String)
    (h : registerReplyCode code = none) :
    (handleFrame u w c (.registerReply code msg)).1 = { c with running := false }
    ∧ (handleFrame u w c (.registerReply code msg)).2 = []
    ∧ resolveRx none = .error .Cancelled := by
  refine ⟨?_, ?_, rfl⟩ <;> simp [handleFrame, h]

/-- Witness for C2: code 123 on a connection with two pending register
waiters stops it; the dropped waiters resolve to `Cancelled`. -/
theorem register_unknown_code_stops_witness :
    (handleFrame (fun _ => none) true
        { Conn.init with registerReply := [10, 11] } (.registerReply 123 "x")).1
      = { Conn.init with registerReply := [10, 11], running := false }
    ∧ resolveRx none = .error .Cancelled := by
  have h := register_unknown_code_stops (fun _ => none) true
    { Conn.init with registerReply := [10, 11] } 123 "x" rfl
  exact ⟨h.1, h.2.2⟩

/-- C3: a unary `RpcRawCall` with `no_reply = false` registers its reply
channel under the allocated request id and awaits it; the future then
resolves with the bytes of a first `Full` chunk, fails with
`GsbFailure "streaming response"` on a first `Part` chunk, and fails with
`GsbFailure "unexpected EOS"` when the channel closes with no chunk. -/
theorem rpc_raw_call_unary (c : Conn) (i s : Nat) (w : Bool) (m : RpcRawCall)
    (h : m.noReply = false) :
    ((rpcRawCallStep c i s w m).2.2 = .awaiting (toString (genId i))
      ∧ mapGet (rpcRawCallStep c i s w m).1.callReply (toString (genId i)) = some s)
    ∧ (∀ d, fetchResponse (some (.ok (.Full d))) = .ok d)
    ∧ (∀ d, fetchResponse (some (.ok (.Part d))) = .error (.GsbFailure "streaming response"))
    ∧ fetchResponse none = .error (.GsbFailure "unexpected EOS") := by
  refine ⟨⟨?_, ?_⟩, fun d => rfl, fun d => rfl, rfl⟩ <;>
    simp [rpcRawCallStep, h, mapGet_mapInsert_self]

/-- Witness for C3 at a concrete call. -/
theorem rpc_raw_call_unary_witness :
    (rpcRawCallStep Conn.init 5 3 true ⟨"me", "/svc/Foo", [1], false⟩).2.2
      = .awaiting (toString (genId 5))
    ∧ fetchResponse (some (.ok (.Full [9]))) = .ok [9] := by
  have h := rpc_raw_call_unary Conn.init 5 3 true ⟨"me", "/svc/Foo", [1], false⟩ rfl
  exact ⟨h.1.1, h.2.1 [9]⟩

/-- The `fold` of `handle_call_request`, run from an arbitrary accumulator:
the flag it leaves is the fold of the per-chunk flags, and the written
replies are the per-chunk replies in order. -/
theorem callRequestFold (ep : Error → List Nat) (rid : String)
    (chunks : List (Except Error ResponseChunk)) (b : Bool) (acc : List CallReply) :
    chunks.foldl
        (fun (a : Bool × List CallReply) r =>
          let er := chunkToReply ep rid r
          (er.1, a.2 ++ [er.2])) (b, acc)
      = (chunks.foldl (fun _ r => (chunkToReply ep rid r).1) b,
         acc ++ chunks.map (fun r => (chunkToReply ep rid r).2)) := by
  induction chunks generalizing b acc with
  | nil => simp
  | cons h t ih => simp [ih]

/-- C4: serving an inbound `CallRequest` with `no_reply = false` writes one
`CallReply` per handler chunk — code 0 with reply type 1 (`Partial`) for a
`Part` and reply type 0 (`Full`) for a `Full` — and appends the empty-data
terminating reply exactly when the last written reply did not already have
reply type 0; a handler error is written as a single `CallReply` with code
500 (`ServiceFailure`) whose payload is the rendered error string, counted
as terminal. -/
theorem call_request_reply_semantics (ep : Error → List Nat) (rid : String)
    (chunks : List (Except Error ResponseChunk)) :
    callRequestReplies ep rid chunks
      = chunks.map (fun r => (chunkToReply ep rid r).2)
        ++ (if repliesEndedFull ep rid chunks then [] else [eosReply rid])
    ∧ (∀ d, chunkToReply ep rid (.ok (.Part d)) = (false, ⟨rid, 0, 1, d⟩))
    ∧ (∀ d, chunkToReply ep rid (.ok (.Full d)) = (true, ⟨rid, 0, 0, d⟩))
    ∧ (∀ e, chunkToReply ep rid (.error e) = (true, ⟨rid, 500, 0, ep e⟩))
    ∧ (∀ r, repliesEndedFull ep rid (chunks ++ [r]) = (chunkToReply ep rid r).1)
    ∧ repliesEndedFull ep rid [] = false
    ∧ (∀ e, callRequestReplies ep rid [.error e] = [⟨rid, 500, 0, ep e⟩]) := by
  refine ⟨?_, fun d => ?_, fun d => ?_, fun e => ?_, fun r => ?_, rfl, fun e => ?_⟩
  · rw [callRequestReplies, callRequestFold]
    simp only [repliesEndedFull]
    split <;> simp
  · simp [chunkToReply, ResponseChunk.replyTypeInt, ResponseChunk.intoVec]
  · simp [chunkToReply, ResponseChunk.replyTypeInt, ResponseChunk.intoVec]
  · simp [chunkToReply]
  · simp [repliesEndedFull, List.foldl_append]
  · simp [callRequestReplies, chunkToReply]

/-- A string never starts with itself extended by a slash. -/
theorem strStartsWith_self_slash (s : String) : strStartsWith s (s ++ "/") = false := by
  refine Bool.eq_false_iff.mpr fun hc => ?_
  rw [strStartsWith, List.isPrefixOf_iff_prefix] at hc
  have hlen := hc.length_le
  have h1 : "/".data.length = 1 := by decide
  rw [String.data_append, List.length_append, h1] at hlen
  omega

/-- C5: `unbind(addr)` removes exactly the keys starting with `addr + "/"`
(with `addr` itself as the pattern when a trailing slash is supplied),
keeps every other key — in particular a key bound at exactly `addr` without
a trailing slash — and resolves true iff at least one key was removed. -/
theorem unbind_semantics (keys : List String) (addr k : String) :
    (strEndsWith addr "/" = false →
       (k ∈ unbindRemoved keys addr ↔ k ∈ keys ∧ strStartsWith k (addr ++ "/") = true))
    ∧ (strEndsWith addr "/" = true →
       (k ∈ unbindRemoved keys addr ↔ k ∈ keys ∧ strStartsWith k addr = true))
    ∧ (k ∈ unbindRemaining keys addr ↔ k ∈ keys ∧ strStartsWith k (unbindPattern addr) = false)
    ∧ (strEndsWith addr "/" = false → addr ∈ keys → addr ∈ unbindRemaining keys addr)
    ∧ (unbindSuccess keys addr = true ↔ unbindRemoved keys addr ≠ []) := by
  refine ⟨fun h => ?_, fun h => ?_, ?_, fun h hm => ?_, ?_⟩
  · simp [unbindRemoved, unbindPattern, h, List.mem_filter]
  · simp [unbindRemoved, unbindPattern, h, List.mem_filter]
  · simp [unbindRemaining, List.mem_filter]
  · simp [unbindRemaining, List.mem_filter, unbindPattern, h, hm,
      strStartsWith_self_slash]
  · cases hr : unbindRemoved keys addr <;> simp [unbindSuccess, hr]

/-- Witness for C5: unbinding `"/svc"` over the keys
`["/svc/a/Foo", "/svcx/a/Foo", "/svc"]` removes only the subtree key,
keeps the sibling and the exact key, and resolves true. -/
theorem unbind_semantics_witness :
    "/svc" ∈ unbindRemaining ["/svc/a/Foo", "/svcx/a/Foo", "/svc"] "/svc"
    ∧ ("/svc/a/Foo" ∈ unbindRemoved ["/svc/a/Foo", "/svcx/a/Foo", "/svc"] "/svc")
    ∧ ("/svcx/a/Foo" ∈ unbindRemaining ["/svc/a/Foo", "/svcx/a/Foo", "/svc"] "/svc")
    ∧ unbindSuccess ["/svc/a/Foo", "/svcx/a/Foo", "/svc"] "/svc" = true := by
  have h1 := unbind_semantics ["/svc/a/Foo", "/svcx/a/Foo", "/svc"] "/svc" "/svc"
  have h2 := unbind_semantics ["/svc/a/Foo", "/svcx/a/Foo", "/svc"] "/svc" "/svc/a/Foo"
  have h3 := unbind_semantics ["/svc/a/Foo", "/svcx/a/Foo", "/svc"] "/svc" "/svcx/a/Foo"
  refine ⟨h1.2.2.2.1 (by decide) (by decide), ?_, ?_, ?_⟩
  · exact (h2.1 (by decide)).mpr ⟨by decide, by decide⟩
  · exact h3.2.2.1.mpr ⟨by decide, by decide⟩
  · exact h1.2.2.2.2.mpr (by decide)

/-- Counterexample to C6 as stated: a `CallReply` carrying the undefined
code 777 whose request id matches no pending call leaves the connection
running — on the unmatched path the frame is dropped before its code is
ever decoded (`handle_reply` looks up the request id first). -/
theorem call_reply_unknown_code_unmatched_keeps_running :
    (handleFrame (fun _ => none) true Conn.init
        (.callReply ⟨"x", 777, 0, []⟩)).1.running = true := by
  rfl

/-- C6 amended: an undefined integer code stops the connection for every
reply frame class matched positionally against a queue (register,
unregister, subscribe, unsubscribe, broadcast), and for a `CallReply`
exactly when its request id matches a pending call; an unmatched
`CallReply` is dropped without its code being decoded, leaving the running
flag unchanged. -/
theorem unknown_code_stop_semantics (u : List Nat → Option String) (w : Bool)
    (c : Conn) (code : Int) (msg : String) :
    (registerReplyCode code = none →
       (handleFrame u w c (.registerReply code msg)).1.running = false)
    ∧ (unregisterReplyCode code = none →
       (handleFrame u w c (.unregisterReply code)).1.running = false)
    ∧ (subscribeReplyCode code = none →
       (handleFrame u w c (.subscribeReply code msg)).1.running = false)
    ∧ (unsubscribeReplyCode code = none →
       (handleFrame u w c (.unsubscribeReply code)).1.running = false)
    ∧ (broadcastReplyCode code = none →
       (handleFrame u w c (.broadcastReply code msg)).1.running = false)
    ∧ (∀ r : CallReply, callReplyCode r.code = none →
        (∀ s, mapGet c.callReply r.requestId = some s →
           (handleFrame u w c (.callReply r)).1.running = false)
        ∧ (mapGet c.callReply r.requestId = none →
           (handleFrame u w c (.callReply r)).1.running = c.running)) := by
  refine ⟨fun h => ?_, fun h => ?_, fun h => ?_, fun h => ?_, fun h => ?_,
    fun r hr => ⟨fun s hs => ?_, fun hn => ?_⟩⟩
  · simp [handleFrame, h]
  · simp [handleFrame, h]
  · simp [handleFrame, h]
  · simp [handleFrame, h]
  · simp [handleFrame, h]
  · simp [handleFrame, hr, hs]
  · simp only [handleFrame, hn]
    split <;> rfl

/-- Witness for the amended C6: code 123 stops a fresh connection on the
register class; code 777 on a matched call reply stops it as well. -/
theorem unknown_code_stop_semantics_witness :
    (handleFrame (fun _ => none) true Conn.init (.registerReply 123 "x")).1.running = false
    ∧ (handleFrame (fun _ => none) true { Conn.init with callReply := [("x", 4)] }
        (.callReply ⟨"x", 777, 0, []⟩)).1.running = false := by
  have h1 := unknown_code_stop_semantics (fun _ => none) true Conn.init 123 "x"
  have h2 := unknown_code_stop_semantics (fun _ => none) true
    { Conn.init with callReply := [("x", 4)] } 777 "x"
  exact ⟨h1.1 rfl, (h2.2.2.2.2.2 ⟨"x", 777, 0, []⟩ rfl).1 4 rfl⟩

/-- The allocated request id is the low-53-bit remainder of the draw. -/
theorem genId_eq_mod (r : Nat) : genId r = r % 2 ^ 53 := by
  have h : (0x001fffffffffffff : Nat) = 2 ^ 53 - 1 := by norm_num
  rw [genId, h, Nat.and_pow_two_sub_one_eq_mod, Nat.mod_mod_of_dvd]
  exact pow_dvd_pow 2 (by norm_num)

/-- Counterexample to C7 as stated: request-id allocation is pure masking
of the random draw with no uniqueness bookkeeping — the distinct draws 0
and 2^53 give two outstanding calls on one connection the same request id
(the second channel registration silently replaces the first). -/
theorem request_id_collision :
    (rpcRawCallStep Conn.init 0 1 true ⟨"a", "/x", [], false⟩).2.2
      = (rpcRawCallStep (rpcRawCallStep Conn.init 0 1 true ⟨"a", "/x", [], false⟩).1
          (2 ^ 53) 2 true ⟨"b", "/y", [], false⟩).2.2
    ∧ (0 : Nat) ≠ 2 ^ 53 := by
  constructor
  · simp [rpcRawCallStep, genId_eq_mod]
  · norm_num

/-- C7 amended: every allocated request id is below 2^53 (the draw masked
to its low 53 bits), and the ids of two calls coincide exactly when their
draws agree modulo 2^53 — uniqueness among outstanding calls holds only up
to absence of such collisions, nothing in the allocator enforces it. -/
theorem request_id_53_bits (c : Conn) (i j s : Nat) (w : Bool) (m : RpcRawCall) :
    genId i < 2 ^ 53
    ∧ (genId i = genId j ↔ i % 2 ^ 53 = j % 2 ^ 53)
    ∧ (m.noReply = false →
        (rpcRawCallStep c i s w m).2.2 = .awaiting (toString (genId i))) := by
  refine ⟨?_, ?_, fun h => ?_⟩
  · rw [genId_eq_mod]
    exact Nat.mod_lt _ (by norm_num)
  · rw [genId_eq_mod, genId_eq_mod]
  · simp [rpcRawCallStep, h]

/-- Witness for the amended C7 at a concrete call. -/
theorem request_id_53_bits_witness :
    genId 12345 < 2 ^ 53
    ∧ (rpcRawCallStep Conn.init 12345 1 true ⟨"a", "/x", [], false⟩).2.2
        = .awaiting (toString (genId 12345)) := by
  have h := request_id_53_bits Conn.init 12345 0 1 true ⟨"a", "/x", [], false⟩
  exact ⟨h.1, h.2.2 rfl⟩

/-- Counterexample to C8 as stated: a `no_reply` raw call whose frame write
is rejected (`writeAccepts = false`, so no frame reaches the transport)
still resolves immediately with `Ok(vec![])` — the write result is
discarded (`let _r = ...`) on this path. -/
theorem push_ignores_write_rejection :
    (rpcRawCallStep Conn.init 0 0 false ⟨"a", "/x", [], true⟩).2.2
      = .immediate (.ok [])
    ∧ (rpcRawCallStep Conn.init 0 0 false ⟨"a", "/x", [], true⟩).2.1 = [] := by
  exact ⟨rfl, rfl⟩

/-- C8 amended: a `no_reply` raw call replies `Ok(vec![])` as soon as the
connection actor has handled the message, for both outcomes of the frame
write (the write result is ignored on this path and the state is
unchanged); `Router::push` then maps any successful send to `Ok(())`. -/
theorem push_resolution_semantics (c : Conn) (i s : Nat) (m : RpcRawCall)
    (h : m.noReply = true) :
    (∀ w, (rpcRawCallStep c i s w m).2.2 = .immediate (.ok []))
    ∧ (∀ w, (rpcRawCallStep c i s w m).1 = c)
    ∧ (∀ (T R : Type) (g : T → List Nat) (r : List Nat → Except Error (List Nat))
         (x : T) (b : List Nat),
        r (g x) = .ok b → pushModel (R := R) none g r x = .ok ()) := by
  refine ⟨fun w => ?_, fun w => ?_, fun T R g r x b hb => ?_⟩
  · simp [rpcRawCallStep, h]
  · simp [rpcRawCallStep, h]
  · simp [pushModel, hb, Except.map]

/-- Witness for the amended C8 at concrete inputs. -/
theorem push_resolution_semantics_witness :
    (rpcRawCallStep Conn.init 7 0 true ⟨"a", "/x", [1], true⟩).2.2
      = .immediate (.ok [])
    ∧ pushModel (T := Nat) (R := Nat) none (fun _ => [1]) (fun _ => .ok []) 0
      = .ok () := by
  have h := push_resolution_semantics Conn.init 7 0 ⟨"a", "/x", [1], true⟩ rfl
  exact ⟨h.1 true, h.2.2 Nat Nat (fun _ => [1]) (fun _ => .ok []) 0 [] rfl⟩

/-- A stopped connection processes no further inbound items. -/
theorem processAll_stopped (u : List Nat → Option String) (w : Bool)
    (items : List (Option GsbMessage)) (c : Conn) (h : c.running = false) :
    processAll u w c items = c := by
  induction items with
  | nil => rfl
  | cons it tail ih =>
      have hst : step u w c it = c := by simp [step, h]
      simp only [processAll, List.foldl_cons, hst] at ih ⊢
      exact ih

/-- Handling any frame preserves an already-stored server info. -/
theorem handleFrame_keeps_serverInfo (u : List Nat → Option String) (w : Bool)
    (c : Conn) (m : GsbMessage) (h : Hello) (hs : c.serverInfo = some h) :
    (handleFrame u w c m).1.serverInfo = some h := by
  cases m <;>
    simp only [handleFrame, popCompleteOr] <;>
    (repeat' split) <;>
    simp_all

/-- One step preserves an already-stored server info. -/
theorem step_keeps_serverInfo (u : List Nat → Option String) (w : Bool)
    (c : Conn) (it : Option GsbMessage) (h : Hello) (hs : c.serverInfo = some h) :
    (step u w c it).serverInfo = some h := by
  by_cases hr : c.running <;>
    rcases it with _ | m <;>
    simp [step, hr, hs, handleFrame_keeps_serverInfo u w c _ h hs]

/-- Inversion for `isHelloItem`. -/
theorem isHelloItem_eq_true (it : Option GsbMessage) :
    isHelloItem it = true ↔ ∃ h, it = some (.hello h) := by
  rcases it with _ | m
  · simp [isHelloItem]
  · cases m <;> simp [isHelloItem]

/-- From a state whose server info is already stored, any trace containing
a further `Hello` leaves the connection stopped. -/
theorem hello_after_info_stops (u : List Nat → Option String) (w : Bool) :
    ∀ (items : List (Option GsbMessage)) (c : Conn) (h : Hello),
      c.serverInfo = some h → 1 ≤ countHello items →
      (processAll u w c items).running = false := by
  intro items
  induction items with
  | nil => intro c h hs hc; simp [countHello] at hc
  | cons it tail ih =>
      intro c h hs hc
      cases hrun : c.running
      · rw [processAll_stopped u w (it :: tail) c hrun]; exact hrun
      · have hstep : processAll u w c (it :: tail) = processAll u w (step u w c it) tail := rfl
        by_cases hh : isHelloItem it = true
        · obtain ⟨h', hit⟩ := (isHelloItem_eq_true it).mp hh
          subst hit
          have hs' : step u w c (some (.hello h')) = { c with running := false } := by
            simp [step, hrun, handleFrame, hs]
          rw [hstep, hs', processAll_stopped u w tail _ rfl]
        · have hcount : countHello (it :: tail) = countHello tail := by
            simp [countHello, List.filter_cons, hh]
          rw [hstep]
          exact ih (step u w c it) h (step_keeps_serverInfo u w c it h hs) (by omega)

/-- C9: the first server `Hello` received on a running connection is stored
as the server info (and the connection keeps running), and after any
inbound trace containing two `Hello` frames the connection is no longer
running. -/
theorem hello_once_semantics (u : List Nat → Option String) (w : Bool) :
    (∀ (c : Conn) (h : Hello), c.running = true → c.serverInfo = none →
       step u w c (some (.hello h)) = { c with serverInfo := some h })
    ∧ (∀ (items : List (Option GsbMessage)) (c : Conn),
       2 ≤ countHello items → (processAll u w c items).running = false) := by
  constructor
  · intro c h hr hs
    simp [step, hr, handleFrame, hs]
  · intro items
    induction items with
    | nil => intro c hc; simp [countHello] at hc
    | cons it tail ih =>
        intro c hc
        cases hrun : c.running
        · rw [processAll_stopped u w (it :: tail) c hrun]; exact hrun
        · have hstep : processAll u w c (it :: tail)
              = processAll u w (step u w c it) tail := rfl
          by_cases hh : isHelloItem it = true
          · obtain ⟨h', hit⟩ := (isHelloItem_eq_true it).mp hh
            subst hit
            have hcount : countHello (some (.hello h') :: tail) = countHello tail + 1 := by
              simp [countHello, List.filter_cons, isHelloItem]
            rcases hsi : c.serverInfo with _ | h0
            · have hs' : step u w c (some (.hello h'))
                  = { c with serverInfo := some h' } := by
                simp [step, hrun, handleFrame, hsi]
              rw [hstep, hs']
              exact hello_after_info_stops u w tail _ h' rfl (by omega)
            · have hs' : step u w c (some (.hello h'))
                  = { c with running := false } := by
                simp [step, hrun, handleFrame, hsi]
              rw [hstep, hs', processAll_stopped u w tail _ rfl]
          · have hcount : countHello (it :: tail) = countHello tail := by
              simp [countHello, List.filter_cons, hh]
            rw [hstep]
            exact ih (step u w c it) (by omega)

/-- Witness for C9: a fresh connection stores the first `Hello` and is
stopped after a trace of two `Hello` frames. -/
theorem hello_once_semantics_witness :
    step (fun _ => none) true Conn.init (some (.hello ⟨"srv", "1", []⟩))
      = { Conn.init with serverInfo := some ⟨"srv", "1", []⟩ }
    ∧ (processAll (fun _ => none) true Conn.init
        [some (.hello ⟨"srv", "1", []⟩),
         some (.hello ⟨"srv", "1", []⟩)]).running = false := by
  have h := hello_once_semantics (fun _ => none) true
  exact ⟨h.1 Conn.init ⟨"srv", "1", []⟩ rfl rfl,
    h.2 [some (.hello ⟨"srv", "1", []⟩), some (.hello ⟨"srv", "1", []⟩)]
      Conn.init (by decide)⟩

/-- Counterexample to C10 as stated: the unary slot cited by the claim
(`Recipient<RpcEnvelope<T>>` in src/bus/src/local_router.rs:27-40) also
panics — `rmp_serde::decode::from_read(..).unwrap()` — on a body that
fails to deserialize, rather than returning the failure as an error
value. -/
theorem bus_unary_slot_panics :
    busUnarySlotSend (T := Nat) (R := Nat)
      (fun _ => .error (.GsbBadRequest "bad payload"))
      (fun v => .ok v) (fun _ => .ok []) [0] = none := rfl

/-- C10 amended: the streaming paths are total only when the payload
(de)serializes — `call_stream` on a streaming-handler slot panics when the
request body fails to deserialize as `T`, and `Router::streaming_forward`
panics on the remote-miss path when the outgoing message fails to
serialize; the current router's unary slot (src/src/local_router.rs:43-54)
returns the deserialization failure as an error value, while the legacy
bus router's unary slot panics as well. -/
theorem streaming_paths_panic_semantics {T R I : Type}
    (de : List Nat → Except Error T) (hi : T → List R) (se : T → Option Error)
    (si : R → Except Error (List Nat)) (body : List Nat)
    (sr : T → Except Error (List Nat)) (di : List Nat → Except Error I)
    (msg : T) (inc : List (Except Error ResponseChunk))
    (ha : T → Except Error R) :
    (∀ e, de body = .error e → streamSlotCallStream de hi se si body = none)
    ∧ (∀ v, de body = .ok v → streamSlotCallStream de hi se si body ≠ none)
    ∧ (∀ e, sr msg = .error e → streamingForwardMiss sr di msg inc = none)
    ∧ (∀ b, sr msg = .ok b →
        streamingForwardMiss sr di msg inc = some (adaptIncoming di inc))
    ∧ (∀ e, de body = .error e → unarySlotSend de ha si body = .error e)
    ∧ (∀ e, de body = .error e → busUnarySlotSend de ha si body = none) := by
  refine ⟨fun e he => ?_, fun v hv => ?_, fun e he => ?_, fun b hb => ?_,
    fun e he => ?_, fun e he => ?_⟩
  · simp [streamSlotCallStream, he]
  · simp [streamSlotCallStream, hv]
  · simp [streamingForwardMiss, he]
  · simp [streamingForwardMiss, hb]
  · simp [unarySlotSend, he]
  · simp [busUnarySlotSend, he]

/-- Witness for the amended C10 at concrete (de)serializers. -/
theorem streaming_paths_panic_semantics_witness :
    streamSlotCallStream (T := Nat) (R := Nat)
      (fun _ => .error (.GsbBadRequest "bad")) (fun _ => []) (fun _ => none)
      (fun _ => .ok []) [0] = none
    ∧ streamingForwardMiss (T := Nat) (I := Nat)
      (fun _ => .error (.GsbBadRequest "bad")) (fun _ => .ok 0) 0 [] = none
    ∧ unarySlotSend (T := Nat) (R := Nat)
      (fun _ => .error (.GsbBadRequest "bad")) (fun v => .ok v) (fun _ => .ok [])
      [0] = .error (.GsbBadRequest "bad") := by
  have h := streaming_paths_panic_semantics (T := Nat) (R := Nat) (I := Nat)
    (fun _ => .error (.GsbBadRequest "bad")) (fun _ => []) (fun _ => none)
    (fun _ => .ok []) [0] (fun _ => .error (.GsbBadRequest "bad")) (fun _ => .ok 0)
    0 [] (fun v => .ok v)
  exact ⟨h.1 _ rfl, h.2.2.1 _ rfl, h.2.2.2.2.1 _ rfl⟩

end Gsb
